import Mathlib

/-!
Hellas Grid Monitor: verification of the data-fetch-and-derive pipeline.

A shallow embedding of `hellas_grid_monitor.py` (a Streamlit dashboard for the
Greek electricity grid) together with theorems settling the specification
claims about its data pipeline.

Modelling conventions:
* Machine floats are modelled by `PyFloat`: an exact rational together with the
  IEEE special values `nan`, `posInf`, `negInf`.  The source computes the
  derived metrics with numpy floats, where division by zero yields `nan`/`inf`
  (with a warning, not an exception); `pyDiv` reproduces that behaviour.
* A pandas generation DataFrame becomes a chronological list of
  `(timestamp, row)` pairs, a row being a list of `(source label, Option ℚ)`
  entries (`none` = missing value / NaN cell).
* Each data-fetching function is embedded as a function of the provider
  outcome (`Except String α`): the provider call either returns data or raises,
  and the embedding records exactly how the source handles (or fails to
  handle) the raised case.
* Timestamps are seconds since the Unix epoch (`ℤ`); the Europe/Athens
  timezone is modelled from the EU daylight-saving rules (last Sunday of March
  01:00 UTC to last Sunday of October 01:00 UTC).
-/

/-! Float model -/

/-- A numpy/Python float value: an exact rational or one of the IEEE special
values that arise from division by zero. -/
inductive PyFloat where
  | val : ℚ → PyFloat
  | nan : PyFloat
  | posInf : PyFloat
  | negInf : PyFloat
deriving DecidableEq

/-- Division of two (finite) floats as numpy performs it: `0/0` is `nan`,
`x/0` for `x ≠ 0` is a signed infinity, otherwise exact division. -/
def pyDiv (a b : ℚ) : PyFloat :=
  if b = 0 then
    (if a = 0 then PyFloat.nan else if 0 < a then PyFloat.posInf else PyFloat.negInf)
  else PyFloat.val (a / b)

/-- Multiplication of a float by a finite constant (used for the `* 100` that
turns ratios into percentages). -/
def pyMul (x : PyFloat) (c : ℚ) : PyFloat :=
  match x with
  | PyFloat.val q => PyFloat.val (q * c)
  | PyFloat.nan => PyFloat.nan
  | PyFloat.posInf =>
      if c = 0 then PyFloat.nan else if 0 < c then PyFloat.posInf else PyFloat.negInf
  | PyFloat.negInf =>
      if c = 0 then PyFloat.nan else if 0 < c then PyFloat.negInf else PyFloat.posInf

/-- Python `int()` on a float: truncation toward zero on a finite value,
`ValueError` on `nan`, `OverflowError` on an infinity. -/
def pyToInt : PyFloat → Except String ℤ
  | PyFloat.val q => Except.ok (q.num.tdiv q.den)
  | PyFloat.nan => Except.error "ValueError"
  | PyFloat.posInf => Except.error "OverflowError"
  | PyFloat.negInf => Except.error "OverflowError"

/-! Metric Derivation Engine

The sidebar metrics of the source (lines 210–224): `latest_value` is the
snapshot row formatted as a `Source`/`MW` table, embedded here as a list of
`(source label, MW)` pairs. -/

/-- The snapshot table `latest_value`: one `(Source, MW)` entry per source. -/
abbrev LatestValue := List (String × ℚ)

/-- `renewable_generation`: the fixed list of renewable source labels. -/
def renewable_generation : List String :=
  ["Wind Onshore", "Solar", "Hydro Water Reservoir", "Biomass"]

/-- `total_generation_MW = latest_value['MW'].sum()`. -/
def total_generation_MW (lv : LatestValue) : ℚ :=
  (lv.map Prod.snd).sum

/-- `renewable_generation_MW`: sum of `MW` over rows whose `Source` is in the
renewable list (`isin`). -/
def renewable_generation_MW (lv : LatestValue) : ℚ :=
  ((lv.filter (fun r => renewable_generation.contains r.1)).map Prod.snd).sum

/-- `renewable_percentage = (renewable_generation_MW/total_generation_MW)*100`. -/
def renewable_percentage (lv : LatestValue) : PyFloat :=
  pyMul (pyDiv (renewable_generation_MW lv) (total_generation_MW lv)) 100

/-- `lignite_generation_MW`: sum of `MW` over rows with
`Source == 'Fossil Brown coal/Lignite'`. -/
def lignite_generation_MW (lv : LatestValue) : ℚ :=
  ((lv.filter (fun r => r.1 == "Fossil Brown coal/Lignite")).map Prod.snd).sum

/-- `lignite_percentage = (lignite_generation_MW/total_generation_MW)*100`. -/
def lignite_percentage (lv : LatestValue) : PyFloat :=
  pyMul (pyDiv (lignite_generation_MW lv) (total_generation_MW lv)) 100

/-- `natural_gas_generation_MW`: sum of `MW` over rows with
`Source == 'Fossil Gas'`. -/
def natural_gas_generation_MW (lv : LatestValue) : ℚ :=
  ((lv.filter (fun r => r.1 == "Fossil Gas")).map Prod.snd).sum

/-- `natural_gas_percentage = (natural_gas_generation_MW/total_generation_MW)*100`. -/
def natural_gas_percentage (lv : LatestValue) : PyFloat :=
  pyMul (pyDiv (natural_gas_generation_MW lv) (total_generation_MW lv)) 100

/-- `co2_emissions = ((lignite_MW*1000) + (natural_gas_MW*400)) / total_MW`. -/
def co2_emissions (lv : LatestValue) : PyFloat :=
  pyDiv (lignite_generation_MW lv * 1000 + natural_gas_generation_MW lv * 400)
    (total_generation_MW lv)

/-- `st.sidebar.progress(int(renewable_percentage))` (line 232): the argument
of the progress bar is the Python `int()` of the percentage float. -/
def progress_bar_arg (x : PyFloat) : Except String ℤ :=
  pyToInt x

/-- The end-to-end test snapshot of the specification. -/
def exampleSnapshot : LatestValue :=
  [("Wind Onshore", 500), ("Solar", 300),
   ("Fossil Brown coal/Lignite", 100), ("Fossil Gas", 100)]

/-- A snapshot whose total generation is zero. -/
def zeroSnapshot : LatestValue :=
  [("Wind Onshore", 0), ("Fossil Gas", 0)]


/-! Provider fetch functions

Each fetch function is embedded as a function of the provider-call outcome:
`Except.ok` when the ENTSO-E client returns a DataFrame, `Except.error` when it
raises.  The embedding records what each source function does with that
outcome — whether a `try/except` catches the error (returning an empty
DataFrame) or lets it escape. -/

/-- A row of the generation DataFrame: per-source values, `none` = NaN cell. -/
abbrev GenRow := List (String × Option ℚ)

/-- The generation DataFrame: chronological `(timestamp, row)` pairs. -/
abbrev GenDF := List (ℤ × GenRow)

/-- A single-column DataFrame (load, price, forecasts):
chronological `(timestamp, value)` pairs. -/
abbrev SeriesDF := List (ℤ × ℚ)

/-- A row is fully populated when no cell is missing. -/
def rowComplete (r : GenRow) : Bool :=
  r.all (fun p => p.2.isSome)

/-- `DataFrame.dropna()`: drop every row with any missing value. -/
def dropna (df : GenDF) : GenDF :=
  df.filter (fun tr => rowComplete tr.2)

/-- Unwrap a (complete) row into the `latest_value` table of
`(Source, MW)` pairs. -/
def unwrapRow (r : GenRow) : LatestValue :=
  r.filterMap (fun p => p.2.map (fun v => (p.1, v)))

/-- `get_generation_data` (lines 49–57): no `try/except`, so a provider error
escapes; on success the function drops incomplete rows and takes the last
remaining row (`dropna().iloc[-1]`) — `iloc[-1]` on an empty frame raises
`IndexError`, also uncaught. -/
def get_generation_data (provider : Except String GenDF) :
    Except String (GenDF × ℤ × LatestValue) :=
  match provider with
  | Except.error e => Except.error e
  | Except.ok df =>
    match (dropna df).getLast? with
    | none => Except.error "IndexError"
    | some tr => Except.ok (df, tr.1, unwrapRow tr.2)

/-- `get_consumption_data` (lines 63–68): no `try/except`; the provider
outcome, success or raised error, passes straight through. -/
def get_consumption_data (provider : Except String SeriesDF) :
    Except String SeriesDF :=
  provider

/-- `get_price_data` (lines 73–81): the provider call is wrapped in
`try/except`; an error is caught and an empty DataFrame returned. -/
def get_price_data (provider : Except String SeriesDF) : SeriesDF :=
  match provider with
  | Except.ok df => df
  | Except.error _ => []

/-- `get_generation_forecast` (lines 122–130): `try/except` returning an empty
DataFrame on error. -/
def get_generation_forecast (provider : Except String SeriesDF) : SeriesDF :=
  match provider with
  | Except.ok df => df
  | Except.error _ => []

/-- `get_consumption_forecast` (lines 136–144): `try/except` returning an
empty DataFrame on error. -/
def get_consumption_forecast (provider : Except String SeriesDF) : SeriesDF :=
  match provider with
  | Except.ok df => df
  | Except.error _ => []

/-! Cached Fetch Layer

The memoization configuration is carried entirely by the `@st.cache_data`
decorators of the source; the embedding records, per fetch function, the TTL
of its decorator (if any) and whether its body catches provider failures. -/

/-- The six data-fetching functions of the source. -/
inductive Fetcher where
  | generation
  | consumption
  | price
  | weather
  | generation_forecast
  | consumption_forecast
deriving DecidableEq, Fintype

/-- The TTL (seconds) of the `@st.cache_data` decorator on each fetch
function; `none` when the function carries no decorator.  From the source:
lines 48, 62, 86, 121, 135 — and `get_price_data` (line 73) is undecorated. -/
def cache_ttl : Fetcher → Option ℕ
  | Fetcher.generation => some 900
  | Fetcher.consumption => some 900
  | Fetcher.price => none
  | Fetcher.weather => some 900
  | Fetcher.generation_forecast => some 900
  | Fetcher.consumption_forecast => some 900

/-- Whether the function's body catches a provider failure (a `try/except`
returning a degraded value). -/
def handles_failure : Fetcher → Bool
  | Fetcher.generation => false
  | Fetcher.consumption => false
  | Fetcher.price => true
  | Fetcher.weather => true
  | Fetcher.generation_forecast => true
  | Fetcher.consumption_forecast => true

/-- The TTL with which a failed fetch is cached: a caught failure is returned
as an ordinary (empty) value, so it is cached under the function's own
decorator TTL; an uncaught failure is an exception, which `st.cache_data`
does not cache at all. -/
def failure_cache_ttl (f : Fetcher) : Option ℕ :=
  if handles_failure f then cache_ttl f else none

/-! Weather lookup (lines 87–116)

On a successful OpenWeatherMap response the source extracts `temperature`,
`wind_speed` and `cloud_cover` and derives a status string from the plant
type.  The embedding takes the three extracted values as inputs. -/

set_option linter.unusedVariables false in
/-- The status classification of `get_weather_data` (lines 95–110), as a
function of the plant type and the three extracted weather values.  The
`temperature` argument is extracted by the source but unused by the
classification, and is kept here to make that visible. -/
def weather_status (plant_type : String) (temperature wind_speed cloud_cover : ℚ) :
    String :=
  if plant_type == "Solar" then
    if cloud_cover > 80 then "Low Solar Output (Cloudy)"
    else if cloud_cover > 50 then "Moderate Solar Output (Partly Cloudy)"
    else "High Solar Output (Clear)"
  else if plant_type == "Wind" then
    if wind_speed < 3 then "Low Wind Output (Calm)"
    else if wind_speed < 8 then "Moderate Wind Output"
    else "High Wind Output (Windy)"
  else "-"

/-- The abstract output-status classes named by the specification. -/
inductive OutputStatus where
  | lowOutput
  | moderateOutput
  | highOutput
  | notApplicable
deriving DecidableEq

/-- Map each status string the source can produce to its abstract class
(the placeholder `"-"` of the non-Solar/non-Wind branch reads
`NotApplicable`). -/
def statusClass (s : String) : OutputStatus :=
  if s = "Low Solar Output (Cloudy)" ∨ s = "Low Wind Output (Calm)" then
    OutputStatus.lowOutput
  else if s = "Moderate Solar Output (Partly Cloudy)" ∨ s = "Moderate Wind Output" then
    OutputStatus.moderateOutput
  else if s = "High Solar Output (Clear)" ∨ s = "High Wind Output (Windy)" then
    OutputStatus.highOutput
  else OutputStatus.notApplicable

/-- The threshold mapping exactly as the specification words it (spec §4.2),
used to compare the source's classification against the spec's. -/
def spec_output_status (plant_type : String) (cloud_cover wind_speed : ℚ) :
    OutputStatus :=
  if plant_type = "Solar" then
    if cloud_cover > 80 then OutputStatus.lowOutput
    else if cloud_cover > 50 then OutputStatus.moderateOutput
    else OutputStatus.highOutput
  else if plant_type = "Wind" then
    if wind_speed < 3 then OutputStatus.lowOutput
    else if wind_speed < 8 then OutputStatus.moderateOutput
    else OutputStatus.highOutput
  else OutputStatus.notApplicable

/-! Time Range Resolver (lines 50–51)

Calendar arithmetic: `daysFromCivil` is the standard civil-calendar day count
(days since 1970-01-01).  Europe/Athens follows the EU daylight-saving rules:
UTC+2, switching to UTC+3 between the last Sunday of March at 01:00 UTC and
the last Sunday of October at 01:00 UTC. -/

/-- Days since 1970-01-01 of the civil date `(y, m, d)`. -/
def daysFromCivil (y m d : ℤ) : ℤ :=
  let yAdj := if m ≤ 2 then y - 1 else y
  let era := (if 0 ≤ yAdj then yAdj else yAdj - 399) / 400
  let yoe := yAdj - era * 400
  let mp := (m + 9) % 12
  let doy := (153 * mp + 2) / 5 + d - 1
  let doe := yoe * 365 + yoe / 4 - yoe / 100 + doy
  era * 146097 + doe - 719468

/-- Timezone-less ("naive") seconds count of the wall-clock time `s` seconds
after midnight of `(y, m, d)`. -/
def naiveSeconds (y m d s : ℤ) : ℤ :=
  daysFromCivil y m d * 86400 + s

/-- Day of week of `(y, m, d)`: `0` = Sunday. -/
def weekday (y m d : ℤ) : ℤ :=
  (daysFromCivil y m d + 4) % 7

/-- Day of month of the last Sunday of March of year `y`. -/
def lastSundayOfMarch (y : ℤ) : ℤ :=
  31 - weekday y 3 31

/-- Day of month of the last Sunday of October of year `y`. -/
def lastSundayOfOctober (y : ℤ) : ℤ :=
  31 - weekday y 10 31

/-- UTC instant at which daylight-saving time starts in year `y`
(last Sunday of March, 01:00 UTC). -/
def dstStartUTC (y : ℤ) : ℤ :=
  naiveSeconds y 3 (lastSundayOfMarch y) 3600

/-- UTC instant at which daylight-saving time ends in year `y`
(last Sunday of October, 01:00 UTC). -/
def dstEndUTC (y : ℤ) : ℤ :=
  naiveSeconds y 10 (lastSundayOfOctober y) 3600

/-- The Europe/Athens UTC offset (seconds) in force at the local wall-clock
time with naive seconds count `naive` in year `y`: summer time runs from
03:00 local (spring transition) to 04:00 local summer time (fall
transition). -/
def athensOffsetOfNaive (y naive : ℤ) : ℤ :=
  if dstStartUTC y + 7200 ≤ naive ∧ naive < dstEndUTC y + 10800 then 10800 else 7200

/-- `pd.Timestamp(..., tz='Europe/Athens')`: localize the wall-clock time `s`
seconds after midnight of `(y, m, d)` to a UTC instant. -/
def athensLocalize (y m d s : ℤ) : ℤ :=
  naiveSeconds y m d s - athensOffsetOfNaive y (naiveSeconds y m d s)

/-- The resolved absolute time range. -/
structure TimeRange' where
  start_time : ℤ
  end_time : ℤ
deriving DecidableEq

/-- The range computation shared by every fetch function (lines 50–51):
`start_time = pd.Timestamp(start_date, tz='Europe/Athens')` and
`end_time = pd.Timestamp(end_date, tz='Europe/Athens') + timedelta(days=1)
- timedelta(seconds=1)` — tz-aware pandas arithmetic adds absolute seconds.
The source performs no validation of the pair of dates (the date pickers of
lines 160–166 only cap each date at today), so the embedding always
succeeds; the `Except` layer records the absence of any error path. -/
def resolve_range (sy sm sd ey em ed : ℤ) : Except String TimeRange' :=
  Except.ok
    { start_time := athensLocalize sy sm sd 0
      end_time := athensLocalize ey em ed 0 + 86400 - 1 }

/-- Sanity check of the calendar model: the epoch date maps to day zero. -/
theorem daysFromCivil_epoch : daysFromCivil 1970 1 1 = 0 := by decide

/-- Sanity check: the 2025 daylight-saving transitions of Europe/Athens fall
on 2025-03-30 and 2025-10-26. -/
theorem dst_transitions_2025 :
    lastSundayOfMarch 2025 = 30 ∧ lastSundayOfOctober 2025 = 26 := by decide

/-! Helper lemmas -/

/-- Evaluation of the total of the specification's end-to-end snapshot. -/
theorem exampleSnapshot_total : total_generation_MW exampleSnapshot = 1000 := by
  norm_num +decide [total_generation_MW, exampleSnapshot]

/-- The sum of the `MW` column of any filtered sub-table is non-negative when
all entries are non-negative. -/
theorem sumMW_filter_nonneg (p : String × ℚ → Bool) :
    ∀ l : LatestValue, (∀ r ∈ l, 0 ≤ r.2) →
      0 ≤ ((l.filter p).map Prod.snd).sum := by
  intro l
  induction l with
  | nil => intro _; simp
  | cons a t ih =>
    intro h
    have ha : 0 ≤ a.2 := h a (List.mem_cons_self a t)
    have ht : ∀ r ∈ t, 0 ≤ r.2 := fun r hr => h r (List.mem_cons_of_mem a hr)
    by_cases hp : p a
    · simpa [List.filter_cons, hp] using add_nonneg ha (ih ht)
    · simpa [List.filter_cons, hp] using ih ht

/-- The sum of the `MW` column of a filtered sub-table is at most the total
when all entries are non-negative. -/
theorem sumMW_filter_le (p : String × ℚ → Bool) :
    ∀ l : LatestValue, (∀ r ∈ l, 0 ≤ r.2) →
      ((l.filter p).map Prod.snd).sum ≤ (l.map Prod.snd).sum := by
  intro l
  induction l with
  | nil => intro _; simp
  | cons a t ih =>
    intro h
    have ha : 0 ≤ a.2 := h a (List.mem_cons_self a t)
    have ht : ∀ r ∈ t, 0 ≤ r.2 := fun r hr => h r (List.mem_cons_of_mem a hr)
    by_cases hp : p a
    · simp only [List.filter_cons, hp, if_pos, List.map_cons, List.sum_cons]
      exact add_le_add_left (ih ht) a.2
    · simp only [List.filter_cons, hp, List.map_cons, List.sum_cons]
      simp only [Bool.false_eq_true, if_false]
      linarith [ih ht]

/-- Three pairwise-exclusive filters decompose at most the whole sum when all
entries are non-negative. -/
theorem sumMW_filter3_le (p q r : String × ℚ → Bool)
    (hpq : ∀ x, ¬(p x = true ∧ q x = true))
    (hpr : ∀ x, ¬(p x = true ∧ r x = true))
    (hqr : ∀ x, ¬(q x = true ∧ r x = true)) :
    ∀ l : LatestValue, (∀ x ∈ l, 0 ≤ x.2) →
      ((l.filter p).map Prod.snd).sum + ((l.filter q).map Prod.snd).sum +
        ((l.filter r).map Prod.snd).sum ≤ (l.map Prod.snd).sum := by
  intro l
  induction l with
  | nil => intro _; simp
  | cons a t ih =>
    intro h
    have ha : 0 ≤ a.2 := h a (List.mem_cons_self a t)
    have ht : ∀ x ∈ t, 0 ≤ x.2 := fun x hx => h x (List.mem_cons_of_mem a hx)
    have iht := ih ht
    by_cases hp : p a = true
    · have hq : ¬ q a = true := fun hq => hpq a ⟨hp, hq⟩
      have hr : ¬ r a = true := fun hr => hpr a ⟨hp, hr⟩
      simp only [List.filter_cons, hp, hq, hr, Bool.false_eq_true, if_true, if_false,
        List.map_cons, List.sum_cons]
      linarith
    · by_cases hq : q a = true
      · have hr : ¬ r a = true := fun hr => hqr a ⟨hq, hr⟩
        simp only [List.filter_cons, hp, hq, hr, Bool.false_eq_true, if_true, if_false,
          List.map_cons, List.sum_cons]
        linarith
      · by_cases hr : r a = true
        · simp only [List.filter_cons, hp, hq, hr, Bool.false_eq_true, if_true, if_false,
            List.map_cons, List.sum_cons]
          linarith
        · simp only [List.filter_cons, hp, hq, hr, Bool.false_eq_true, if_false,
            List.map_cons, List.sum_cons]
          linarith

/-- The renewable filter excludes the lignite label. -/
theorem renewable_not_lignite :
    ∀ x : String × ℚ,
      ¬((renewable_generation.contains x.1) = true ∧
        (x.1 == "Fossil Brown coal/Lignite") = true) := by
  intro x ⟨h1, h2⟩
  rw [beq_iff_eq] at h2
  rw [h2] at h1
  simp [renewable_generation] at h1

/-- The renewable filter excludes the natural-gas label. -/
theorem renewable_not_gas :
    ∀ x : String × ℚ,
      ¬((renewable_generation.contains x.1) = true ∧ (x.1 == "Fossil Gas") = true) := by
  intro x ⟨h1, h2⟩
  rw [beq_iff_eq] at h2
  rw [h2] at h1
  simp [renewable_generation] at h1

/-- The lignite and natural-gas labels differ. -/
theorem lignite_not_gas :
    ∀ x : String × ℚ,
      ¬((x.1 == "Fossil Brown coal/Lignite") = true ∧ (x.1 == "Fossil Gas") = true) := by
  intro x ⟨h1, h2⟩
  rw [beq_iff_eq] at h1
  rw [beq_iff_eq] at h2
  rw [h1] at h2
  exact absurd h2 (by decide)

/-! Claim theorems: Metric Derivation Engine -/

/-- Claim C1, behaviour of the code at the failing input: for a snapshot with
`totalMW = 0` the source does not return a sentinel "undefined": the numpy
division `0/0` yields `nan` for all four derived metrics, that `nan` is
interpolated into the displayed strings, and `int(renewable_percentage)` in
`st.sidebar.progress` raises `ValueError` — contradicting "never throws and
never silently propagates ... into the displayed values". -/
theorem C1_zero_total_behaviour :
    total_generation_MW zeroSnapshot = 0 ∧
    renewable_percentage zeroSnapshot = PyFloat.nan ∧
    lignite_percentage zeroSnapshot = PyFloat.nan ∧
    natural_gas_percentage zeroSnapshot = PyFloat.nan ∧
    co2_emissions zeroSnapshot = PyFloat.nan ∧
    progress_bar_arg (renewable_percentage zeroSnapshot) = Except.error "ValueError" := by
  refine ⟨?_, ?_, ?_, ?_, ?_, ?_⟩ <;>
    norm_num +decide [total_generation_MW, renewable_percentage, lignite_percentage,
      natural_gas_percentage, co2_emissions, renewable_generation_MW,
      lignite_generation_MW, natural_gas_generation_MW, pyDiv, pyMul,
      progress_bar_arg, pyToInt, zeroSnapshot, renewable_generation,
      List.filter_cons, List.filter_nil]

/-- Claim C4: with a non-zero total, the engine computes `renewableShare` as the
filtered sum over the fixed renewable set divided by the total times 100, and
`co2IntensityKgPerMWh` as `(ligniteMW*1000 + gasMW*400)/totalMW`; on the
specification's end-to-end snapshot it returns total 1000 MW,
renewable 80 %, lignite 10 %, gas 10 % and 140 kg/MWh. -/
theorem C4_metric_formulas :
    (∀ lv : LatestValue, total_generation_MW lv ≠ 0 →
      renewable_percentage lv =
        PyFloat.val (renewable_generation_MW lv / total_generation_MW lv * 100) ∧
      lignite_percentage lv =
        PyFloat.val (lignite_generation_MW lv / total_generation_MW lv * 100) ∧
      natural_gas_percentage lv =
        PyFloat.val (natural_gas_generation_MW lv / total_generation_MW lv * 100) ∧
      co2_emissions lv =
        PyFloat.val ((lignite_generation_MW lv * 1000 +
          natural_gas_generation_MW lv * 400) / total_generation_MW lv)) ∧
    total_generation_MW exampleSnapshot = 1000 ∧
    renewable_generation_MW exampleSnapshot = 800 ∧
    renewable_percentage exampleSnapshot = PyFloat.val 80 ∧
    lignite_percentage exampleSnapshot = PyFloat.val 10 ∧
    natural_gas_percentage exampleSnapshot = PyFloat.val 10 ∧
    co2_emissions exampleSnapshot = PyFloat.val 140 := by
  constructor
  · intro lv hne
    refine ⟨?_, ?_, ?_, ?_⟩ <;>
      simp [renewable_percentage, lignite_percentage, natural_gas_percentage,
        co2_emissions, pyDiv, pyMul, hne]
  · refine ⟨exampleSnapshot_total, ?_, ?_, ?_, ?_, ?_⟩ <;>
      norm_num +decide [total_generation_MW, renewable_percentage, lignite_percentage,
        natural_gas_percentage, co2_emissions, renewable_generation_MW,
        lignite_generation_MW, natural_gas_generation_MW, pyDiv, pyMul,
        exampleSnapshot, renewable_generation, List.filter_cons, List.filter_nil]

/-- Witness for `C4_metric_formulas`: its general clause applied to the
end-to-end snapshot, whose total is non-zero. -/
theorem C4_metric_formulas_witness :
    renewable_percentage exampleSnapshot =
      PyFloat.val (renewable_generation_MW exampleSnapshot /
        total_generation_MW exampleSnapshot * 100) ∧
    lignite_percentage exampleSnapshot =
      PyFloat.val (lignite_generation_MW exampleSnapshot /
        total_generation_MW exampleSnapshot * 100) ∧
    natural_gas_percentage exampleSnapshot =
      PyFloat.val (natural_gas_generation_MW exampleSnapshot /
        total_generation_MW exampleSnapshot * 100) ∧
    co2_emissions exampleSnapshot =
      PyFloat.val ((lignite_generation_MW exampleSnapshot * 1000 +
        natural_gas_generation_MW exampleSnapshot * 400) /
        total_generation_MW exampleSnapshot) :=
  C4_metric_formulas.1 exampleSnapshot
    (ne_of_eq_of_ne exampleSnapshot_total (by decide))

/-- Claim C5: when every entry of the snapshot is non-negative and the total is
strictly positive, each of the three shares is a finite value in `[0, 100]`,
and — the renewable set, lignite label and gas label being pairwise
disjoint — their sum is at most 100 (exactly, in the rational model). -/
theorem C5_share_bounds (lv : LatestValue)
    (hnn : ∀ r ∈ lv, 0 ≤ r.2) (hpos : 0 < total_generation_MW lv) :
    ∃ qr ql qg : ℚ,
      renewable_percentage lv = PyFloat.val qr ∧
      lignite_percentage lv = PyFloat.val ql ∧
      natural_gas_percentage lv = PyFloat.val qg ∧
      0 ≤ qr ∧ qr ≤ 100 ∧ 0 ≤ ql ∧ ql ≤ 100 ∧ 0 ≤ qg ∧ qg ≤ 100 ∧
      qr + ql + qg ≤ 100 := by
  have hne : total_generation_MW lv ≠ 0 := ne_of_gt hpos
  have hR0 : 0 ≤ renewable_generation_MW lv := sumMW_filter_nonneg _ lv hnn
  have hL0 : 0 ≤ lignite_generation_MW lv := sumMW_filter_nonneg _ lv hnn
  have hG0 : 0 ≤ natural_gas_generation_MW lv := sumMW_filter_nonneg _ lv hnn
  have hRle : renewable_generation_MW lv ≤ total_generation_MW lv :=
    sumMW_filter_le _ lv hnn
  have hLle : lignite_generation_MW lv ≤ total_generation_MW lv :=
    sumMW_filter_le _ lv hnn
  have hGle : natural_gas_generation_MW lv ≤ total_generation_MW lv :=
    sumMW_filter_le _ lv hnn
  have h3 : renewable_generation_MW lv + lignite_generation_MW lv +
      natural_gas_generation_MW lv ≤ total_generation_MW lv :=
    sumMW_filter3_le _ _ _ renewable_not_lignite renewable_not_gas lignite_not_gas
      lv hnn
  refine ⟨renewable_generation_MW lv / total_generation_MW lv * 100,
    lignite_generation_MW lv / total_generation_MW lv * 100,
    natural_gas_generation_MW lv / total_generation_MW lv * 100,
    ?_, ?_, ?_, ?_, ?_, ?_, ?_, ?_, ?_, ?_⟩
  · simp [renewable_percentage, pyDiv, pyMul, hne]
  · simp [lignite_percentage, pyDiv, pyMul, hne]
  · simp [natural_gas_percentage, pyDiv, pyMul, hne]
  · exact mul_nonneg (div_nonneg hR0 hpos.le) (by norm_num)
  · have h1 : renewable_generation_MW lv / total_generation_MW lv ≤ 1 :=
      (div_le_one hpos).mpr hRle
    linarith
  · exact mul_nonneg (div_nonneg hL0 hpos.le) (by norm_num)
  · have h1 : lignite_generation_MW lv / total_generation_MW lv ≤ 1 :=
      (div_le_one hpos).mpr hLle
    linarith
  · exact mul_nonneg (div_nonneg hG0 hpos.le) (by norm_num)
  · have h1 : natural_gas_generation_MW lv / total_generation_MW lv ≤ 1 :=
      (div_le_one hpos).mpr hGle
    linarith
  · have hsum : renewable_generation_MW lv / total_generation_MW lv * 100 +
        lignite_generation_MW lv / total_generation_MW lv * 100 +
        natural_gas_generation_MW lv / total_generation_MW lv * 100 =
        (renewable_generation_MW lv + lignite_generation_MW lv +
          natural_gas_generation_MW lv) / total_generation_MW lv * 100 := by
      ring
    have h1 : (renewable_generation_MW lv + lignite_generation_MW lv +
        natural_gas_generation_MW lv) / total_generation_MW lv ≤ 1 :=
      (div_le_one hpos).mpr h3
    rw [hsum]
    linarith

/-- Witness for `C5_share_bounds`: the bounds at the end-to-end snapshot. -/
theorem C5_share_bounds_witness :
    ∃ qr ql qg : ℚ,
      renewable_percentage exampleSnapshot = PyFloat.val qr ∧
      lignite_percentage exampleSnapshot = PyFloat.val ql ∧
      natural_gas_percentage exampleSnapshot = PyFloat.val qg ∧
      0 ≤ qr ∧ qr ≤ 100 ∧ 0 ≤ ql ∧ ql ≤ 100 ∧ 0 ≤ qg ∧ qg ≤ 100 ∧
      qr + ql + qg ≤ 100 :=
  C5_share_bounds exampleSnapshot (by decide)
    (lt_of_lt_of_eq (by decide) exampleSnapshot_total.symm)

/-! Claim theorems: fetch isolation and caching -/

/-- Claim C2 counterexample: a failing generation fetch is not contained — the
source's `get_generation_data` has no `try/except`, so the provider error
escapes (and, being called unprotected at module level, aborts the render
pass). -/
theorem C2_counterexample :
    get_generation_data (Except.error "ConnectionError") =
      Except.error "ConnectionError" := rfl

/-- Claim C2 as amended: the price and the two forecast fetches contain a
provider failure, returning an empty DataFrame, but the generation and load
fetches let the exception escape. -/
theorem C2_amended_containment (e : String) :
    get_price_data (Except.error e) = [] ∧
    get_generation_forecast (Except.error e) = [] ∧
    get_consumption_forecast (Except.error e) = [] ∧
    get_generation_data (Except.error e) = Except.error e ∧
    get_consumption_data (Except.error e) = Except.error e :=
  ⟨rfl, rfl, rfl, rfl, rfl⟩

/-- Claim C3 counterexample: the day-ahead price query carries no
`@st.cache_data` decorator at all, and a caught failure (here of the
generation forecast) is cached with the ordinary 900-second TTL — no
60-second failure TTL exists anywhere in the source. -/
theorem C3_counterexample :
    cache_ttl Fetcher.price = none ∧
    failure_cache_ttl Fetcher.price = none ∧
    failure_cache_ttl Fetcher.generation_forecast = some 900 := by
  decide

/-- Claim C3 as amended: every fetch function except the price query is
memoized with a 900-second TTL, the price query is not memoized, and no fetch
function caches its failures with a 60-second TTL (caught failures share the
ordinary 900-second TTL; uncaught ones are not cached). -/
theorem C3_amended_ttl :
    (∀ f : Fetcher, f ≠ Fetcher.price → cache_ttl f = some 900) ∧
    cache_ttl Fetcher.price = none ∧
    (∀ f : Fetcher, failure_cache_ttl f ≠ some 60) := by
  refine ⟨?_, rfl, ?_⟩ <;> decide

/-- Witness for `C3_amended_ttl` at the generation fetch. -/
theorem C3_amended_ttl_witness :
    cache_ttl Fetcher.generation = some 900 ∧
    failure_cache_ttl Fetcher.generation ≠ some 60 :=
  ⟨C3_amended_ttl.1 Fetcher.generation (by decide),
   C3_amended_ttl.2.2 Fetcher.generation⟩

/-! Claim theorems: weather status -/

/-- Claim C8: the source's status classification coincides with the
specification's threshold mapping for every plant type and every observed
weather value, and in particular on the spec's three test rows
(Solar at 85 % cloud, Wind at 5 m/s, Hydro). -/
theorem C8_weather_thresholds :
    (∀ pt : String, ∀ t ws cc : ℚ,
      statusClass (weather_status pt t ws cc) = spec_output_status pt cc ws) ∧
    statusClass (weather_status "Solar" 25 5 85) = OutputStatus.lowOutput ∧
    statusClass (weather_status "Wind" 25 5 20) = OutputStatus.moderateOutput ∧
    statusClass (weather_status "Hydro" 25 5 85) = OutputStatus.notApplicable := by
  refine ⟨?_, by decide, by decide, by decide⟩
  intro pt t ws cc
  by_cases h1 : pt = "Solar"
  · subst h1
    simp only [weather_status, spec_output_status, beq_self_eq_true, if_true]
    split_ifs <;> simp [statusClass]
  · by_cases h2 : pt = "Wind"
    · subst h2
      simp only [weather_status, spec_output_status, beq_iff_eq, String.reduceEq,
        if_false, if_true]
      split_ifs <;> simp [statusClass]
    · simp [weather_status, spec_output_status, statusClass, beq_iff_eq, h1, h2]

/-- Claim C10: on a successful lookup the Solar status reads only the cloud
cover, the Wind status reads only the wind speed, and every other plant type
gets the constant placeholder status, independent of all three weather
values. -/
theorem C10_status_noninterference :
    (∀ t t' ws ws' cc : ℚ,
      weather_status "Solar" t ws cc = weather_status "Solar" t' ws' cc) ∧
    (∀ t t' cc cc' ws : ℚ,
      weather_status "Wind" t ws cc = weather_status "Wind" t' ws cc') ∧
    (∀ pt : String, pt ≠ "Solar" → pt ≠ "Wind" →
      ∀ t ws cc : ℚ, weather_status pt t ws cc = "-") := by
  refine ⟨?_, ?_, ?_⟩
  · intro t t' ws ws' cc
    simp [weather_status]
  · intro t t' cc cc' ws
    simp [weather_status]
  · intro pt h1 h2 t ws cc
    simp [weather_status, beq_iff_eq, h1, h2]

/-- Witness for `C10_status_noninterference`: the Hydro plant type gets the
placeholder status. -/
theorem C10_status_noninterference_witness :
    weather_status "Hydro" 15 5 50 = "-" :=
  C10_status_noninterference.2.2 "Hydro" (by decide) (by decide) 15 5 50

/-! Claim theorems: snapshot selection -/

/-- The head of a filtered list is the first element satisfying the
predicate. -/
theorem head?_filter_eq_find? (p : ℤ × GenRow → Bool) :
    ∀ l : List (ℤ × GenRow), (l.filter p).head? = l.find? p := by
  intro l
  induction l with
  | nil => simp
  | cons a t ih =>
    by_cases hp : p a
    · simp [List.filter_cons, List.find?_cons, hp]
    · simp [List.filter_cons, List.find?_cons, hp, ih]

/-- The specification's "most recent fully-populated row" of a SeriesSet:
scanning from the most recent row backwards, the first row with no missing
cell. -/
def latest_complete_row (df : GenDF) : Option (ℤ × GenRow) :=
  df.reverse.find? (fun tr => rowComplete tr.2)

/-- A generation SeriesSet whose most recent row has a missing cell. -/
def exampleDF : GenDF :=
  [(1, [("Solar", some 3), ("Wind Onshore", some 4)]),
   (2, [("Solar", some 5), ("Wind Onshore", some 7)]),
   (3, [("Solar", none), ("Wind Onshore", some 9)])]

/-- Claim C9: the source's `dropna().iloc[-1]` selection equals the drop-then-
last rule — the most recent fully-populated row — for every SeriesSet; on
`exampleDF`, whose newest row has a missing Solar cell, the snapshot is the
older complete row at timestamp 2 (not the newest row zero-filled). -/
theorem C9_snapshot_rule :
    (∀ df : GenDF, (dropna df).getLast? = latest_complete_row df) ∧
    get_generation_data (Except.ok exampleDF) =
      Except.ok (exampleDF, 2, [("Solar", 5), ("Wind Onshore", 7)]) := by
  constructor
  · intro df
    rw [dropna, latest_complete_row, List.getLast?_eq_head?_reverse,
      ← List.filter_reverse, head?_filter_eq_find?]
  · rfl

/-! Claim theorems: Time Range Resolver -/

/-- Claim C6 counterexample: on the spring daylight-saving transition date
(2025-03-30 in Europe/Athens, a 23-hour day) the resolved end instant is NOT
the end date at 23:59:59 local time — the source adds 86399 absolute seconds
to local midnight, landing at 00:59:59 local time of the next day. -/
theorem C6_counterexample :
    resolve_range 2025 3 1 2025 3 30 ≠
      Except.ok { start_time := athensLocalize 2025 3 1 0,
                  end_time := athensLocalize 2025 3 30 86399 } := by
  intro h
  have h2 := Except.ok.inj h
  exact absurd h2 (by decide)

/-- Claim C6 as amended: the resolved start is the start date at local
midnight, and the resolved end is local midnight of the end date plus 86399
absolute seconds — which equals the end date at 23:59:59 local time exactly
when no daylight-saving transition occurs within the end date (same UTC
offset at 00:00:00 and at 23:59:59). -/
theorem C6_amended_resolver (sy sm sd ey em ed : ℤ)
    (h : athensOffsetOfNaive ey (naiveSeconds ey em ed 0) =
         athensOffsetOfNaive ey (naiveSeconds ey em ed 86399)) :
    resolve_range sy sm sd ey em ed =
      Except.ok { start_time := athensLocalize sy sm sd 0,
                  end_time := athensLocalize ey em ed 86399 } := by
  simp only [resolve_range, athensLocalize, Except.ok.injEq, TimeRange'.mk.injEq,
    true_and, and_true, eq_self_iff_true]
  have h2 : naiveSeconds ey em ed 86399 = naiveSeconds ey em ed 0 + 86399 := by
    simp only [naiveSeconds]
    ring
  rw [h2] at h ⊢
  omega

/-- Witness for `C6_amended_resolver`: an ordinary summer fortnight
(2025-06-01 to 2025-06-15) with no transition inside the end date. -/
theorem C6_amended_resolver_witness :
    athensOffsetOfNaive 2025 (naiveSeconds 2025 6 15 0) =
      athensOffsetOfNaive 2025 (naiveSeconds 2025 6 15 86399) ∧
    resolve_range 2025 6 1 2025 6 15 =
      Except.ok { start_time := athensLocalize 2025 6 1 0,
                  end_time := athensLocalize 2025 6 15 86399 } :=
  ⟨by decide, C6_amended_resolver 2025 6 1 2025 6 15 (by decide)⟩

/-- Claim C7 counterexample: for the inverted pair start 2025-06-10,
end 2025-06-05 the source raises no validation error at all — the range is
resolved successfully and handed to the provider with its end instant
(2025-06-05 23:59:59 EEST = 1749157199) strictly before its start instant
(2025-06-10 00:00:00 EEST = 1749502800). -/
theorem C7_counterexample :
    resolve_range 2025 6 10 2025 6 5 =
      Except.ok { start_time := 1749502800, end_time := 1749157199 } ∧
    (1749157199 : ℤ) < 1749502800 := by
  refine ⟨?_, by decide⟩
  have h : ({ start_time := athensLocalize 2025 6 10 0,
              end_time := athensLocalize 2025 6 5 0 + 86400 - 1 } : TimeRange') =
      { start_time := 1749502800, end_time := 1749157199 } := by decide
  exact congrArg Except.ok h

/-- Claim C7 as amended: the source performs no validation of the date pair —
for every pair of calendar dates, inverted or not, the range computation
succeeds, returning local midnight of the start date and local midnight of
the end date plus 86399 seconds; an inverted pair is forwarded to the
provider query as-is. -/
theorem C7_amended_no_validation :
    ∀ sy sm sd ey em ed : ℤ,
      resolve_range sy sm sd ey em ed =
        Except.ok { start_time := athensLocalize sy sm sd 0,
                    end_time := athensLocalize ey em ed 0 + 86400 - 1 } :=
  fun _ _ _ _ _ _ => rfl
